import Mathlib

/-!
Verification of the procedural 3D property-model generation pipeline
(`backend/services/modeling_3d.py`).

The embedding models meshes as explicit vertex/face lists over `ℚ`
(Python floats are modelled by exact rationals), building records with
the optional fields of `models/property.py`, and the pipeline
(`PropertyModel.generate_model` / `export_model` /
`generate_property_model`) as pure functions of the external
collaborators' outcomes (terrain provider reply, filesystem success,
fresh identifiers supplied by `uuid`).
-/

namespace Modeling3d

/-- A triangle mesh: ordered vertex positions and triangular faces given by
vertex indices, mirroring `trimesh.Trimesh(vertices=..., faces=...)`. -/
structure Mesh where
  vertices : List (ℚ × ℚ × ℚ)
  faces : List (Nat × Nat × Nat)
  deriving Repr, DecidableEq

/-- Face-index safety: every face references vertex indices strictly below the
vertex count. -/
def Mesh.valid (m : Mesh) : Prop :=
  ∀ f ∈ m.faces,
    f.1 < m.vertices.length ∧ f.2.1 < m.vertices.length ∧ f.2.2 < m.vertices.length

instance (m : Mesh) : Decidable m.valid := by
  unfold Mesh.valid; infer_instance

/-- The empty mesh (the accumulator used when concatenating). -/
def emptyMesh : Mesh := ⟨[], []⟩

/-- Append a second mesh onto a first, offsetting the second mesh's face
indices by the running vertex count of the first
(`trimesh.util.concatenate`'s per-mesh reindexing). -/
def Mesh.append (a b : Mesh) : Mesh :=
  ⟨a.vertices ++ b.vertices,
   a.faces ++ b.faces.map (fun f =>
     (f.1 + a.vertices.length, f.2.1 + a.vertices.length, f.2.2 + a.vertices.length))⟩

/-- `trimesh.util.concatenate`: merge a list of meshes into one, each mesh's
face indices offset by the vertex count of all previously appended meshes. -/
def concatMeshes (ms : List Mesh) : Mesh :=
  ms.foldl Mesh.append emptyMesh

/-- `PropertyModel._combine_models`: collect the terrain mesh (when present)
and every generated building mesh; fail (`return False`, reported as the
scene being empty) when there is nothing to combine, otherwise concatenate. -/
def combineModels (terrain : Option Mesh) (buildings : List Mesh) : Option Mesh :=
  let meshes := (match terrain with | some t => [t] | none => []) ++ buildings
  if meshes = [] then none else some (concatMeshes meshes)

theorem append_valid {a b : Mesh} (ha : a.valid) (hb : b.valid) :
    (a.append b).valid := by
  intro f hf
  simp only [Mesh.append, List.mem_append, List.mem_map] at hf
  rcases hf with hf | ⟨g, hg, rfl⟩
  · have := ha f hf
    simp only [Mesh.append, List.length_append]
    exact ⟨this.1.trans_le (Nat.le_add_right _ _),
           this.2.1.trans_le (Nat.le_add_right _ _),
           this.2.2.trans_le (Nat.le_add_right _ _)⟩
  · have := hb g hg
    simp only [Mesh.append, List.length_append]
    refine ⟨?_, ?_, ?_⟩
    · simpa [Nat.add_comm] using Nat.add_lt_add_left this.1 a.vertices.length
    · simpa [Nat.add_comm] using Nat.add_lt_add_left this.2.1 a.vertices.length
    · simpa [Nat.add_comm] using Nat.add_lt_add_left this.2.2 a.vertices.length

theorem emptyMesh_valid : emptyMesh.valid := by
  intro f hf; simp [emptyMesh] at hf

theorem foldl_append_valid (ms : List Mesh) (acc : Mesh) (hacc : acc.valid)
    (hms : ∀ m ∈ ms, m.valid) : (ms.foldl Mesh.append acc).valid := by
  induction ms generalizing acc with
  | nil => simpa using hacc
  | cons m rest ih =>
      simp only [List.foldl_cons]
      exact ih _ (append_valid hacc (hms m (by simp)))
        (fun x hx => hms x (by simp [hx]))

theorem concatMeshes_valid (ms : List Mesh) (hms : ∀ m ∈ ms, m.valid) :
    (concatMeshes ms).valid :=
  foldl_append_valid ms emptyMesh emptyMesh_valid hms

theorem concatMeshes_single (t : Mesh) : concatMeshes [t] = t := by
  cases t with
  | mk v f =>
      simp [concatMeshes, Mesh.append, emptyMesh]

/-- Claim C5: after composing any collection of (face-index-safe) input meshes,
every face of the result references three vertex indices each strictly less
than the combined vertex count, because each input mesh's face indices are
offset by the running vertex count of previously appended meshes. -/
theorem combined_mesh_index_safe (terrain : Option Mesh) (buildings : List Mesh)
    (ht : ∀ t, terrain = some t → t.valid) (hb : ∀ m ∈ buildings, m.valid)
    (out : Mesh) (hout : combineModels terrain buildings = some out) :
    out.valid := by
  simp only [combineModels] at hout
  split at hout
  · exact absurd hout (by simp)
  · injection hout with hout
    subst hout
    apply concatMeshes_valid
    intro m hm
    rcases List.mem_append.mp hm with hm | hm
    · cases terrain with
      | none => simp at hm
      | some t =>
          simp at hm
          subst hm
          exact ht _ rfl
    · exact hb m hm

/-- Witness for C5 at concrete meshes: a one-triangle terrain composed with a
one-triangle building; the combined mesh is face-index safe. -/
theorem combined_mesh_index_safe_witness :
    Mesh.valid ⟨[(0,0,0),(1,0,0),(0,1,0),(0,0,1),(1,0,1),(0,1,1)], [(0,1,2),(3,4,5)]⟩ :=
  combined_mesh_index_safe
    (some ⟨[(0,0,0),(1,0,0),(0,1,0)], [(0,1,2)]⟩)
    [⟨[(0,0,1),(1,0,1),(0,1,1)], [(0,1,2)]⟩]
    (fun u hu => by cases hu; decide)
    (by intro m hm; simp at hm; subst hm; decide)
    _ (by decide)

/-- Claim C8: composing with no terrain mesh and an empty building list fails
(the combine step returns nothing, so the run is reported failed), while a
present terrain with an empty building list succeeds and yields the terrain
mesh unchanged. -/
theorem compose_empty_scene (t : Mesh) :
    combineModels none [] = none ∧ combineModels (some t) [] = some t := by
  constructor
  · simp [combineModels]
  · simp [combineModels, concatMeshes_single]

/-- Python `int()` applied to a float: truncation toward zero. -/
def pyInt (q : ℚ) : Int := if 0 ≤ q then ⌊q⌋ else -⌊-q⌋

/-- `TerrainModel._process_terrain_data`: `grid_size = int(self.radius * 2 *
self.resolution)`. -/
def gridSize (radius resolution : ℚ) : Nat := (pyInt (radius * 2 * resolution)).toNat

/-- `TerrainModel._process_terrain_data`: the interpolated height grid
`grid_z = griddata(..., (grid_x, grid_y), ...)` of shape
`(grid_size, grid_size)`; the interpolation itself is performed by the
external `scipy.interpolate.griddata` collaborator, modelled as an arbitrary
function of the grid indices. -/
def processTerrainGrid (radius resolution : ℚ) (interp : Nat → Nat → ℚ) :
    List (List ℚ) :=
  (List.range (gridSize radius resolution)).map fun i =>
    (List.range (gridSize radius resolution)).map fun j => interp i j

/-- `TerrainModel.generate_mesh` vertex loop: for every grid index pair
`(i, j)` one vertex at `(j*scale - radius, i*scale - radius, h[i][j]*mult)`
with `scale = radius*2/grid_size`. -/
def terrainVertices (n : Nat) (radius mult : ℚ) (h : Nat → Nat → ℚ) :
    List (ℚ × ℚ × ℚ) :=
  (List.range n).flatMap fun (i : ℕ) =>
    (List.range n).map fun (j : ℕ) =>
      ((j : ℚ) * (radius * 2 / (n : ℚ)) - radius,
       (i : ℚ) * (radius * 2 / (n : ℚ)) - radius,
       h i j * mult)

/-- `TerrainModel.generate_mesh` face loop: two triangles per grid cell, with
the exact index arithmetic of the source (`idx00 = i*grid_size + j`, ...). -/
def terrainFaces (n : Nat) : List (Nat × Nat × Nat) :=
  (List.range (n - 1)).flatMap fun i =>
    (List.range (n - 1)).flatMap fun j =>
      [(i * n + j, (i + 1) * n + j, (i + 1) * n + (j + 1)),
       (i * n + j, (i + 1) * n + (j + 1), i * n + (j + 1))]

/-- `TerrainModel.generate_mesh` on an `n × n` height grid. -/
def terrainGenerateMesh (n : Nat) (radius mult : ℚ) (h : Nat → Nat → ℚ) : Mesh :=
  ⟨terrainVertices n radius mult h, terrainFaces n⟩

theorem terrainVertices_length (n : Nat) (radius mult : ℚ) (h : Nat → Nat → ℚ) :
    (terrainVertices n radius mult h).length = n * n := by
  simp [terrainVertices, List.length_flatMap, Function.comp_def, List.map_const]

theorem terrainFaces_length (n : Nat) :
    (terrainFaces n).length = (n - 1) * (n - 1) * 2 := by
  simp [terrainFaces, List.length_flatMap, Function.comp_def, List.map_const,
    Nat.mul_comm]
  ring

/-- Claim C2: for every N ≥ 2 and every N×N height grid,
`TerrainModel.generate_mesh` produces exactly N*N vertices and exactly
(N-1)*(N-1)*2 triangular faces, two per grid cell. -/
theorem terrain_mesh_counts (n : Nat) (radius mult : ℚ) (h : Nat → Nat → ℚ)
    (_hn : 2 ≤ n) :
    (terrainGenerateMesh n radius mult h).vertices.length = n * n ∧
    (terrainGenerateMesh n radius mult h).faces.length = (n - 1) * (n - 1) * 2 :=
  ⟨terrainVertices_length n radius mult h, terrainFaces_length n⟩

/-- Witness for C2 at N = 3 on a concrete height grid. -/
theorem terrain_mesh_counts_witness :
    (2 ≤ 3) ∧
    (terrainGenerateMesh 3 100 1 (fun i j => (i : ℚ) + j)).vertices.length = 3 * 3 ∧
    (terrainGenerateMesh 3 100 1 (fun i j => (i : ℚ) + j)).faces.length = (3 - 1) * (3 - 1) * 2 :=
  ⟨by decide, terrain_mesh_counts 3 100 1 (fun i j => (i : ℚ) + j) (by decide)⟩

/-- Counterexample for C6: at radius 1 and resolution 3/4 the grid has
dimension `int(1 * 2 * 3/4) = 1`, not `ceil(1 * 2 * 3/4) = 2` as claimed:
Python `int()` truncates rather than rounding up. -/
theorem grid_size_not_ceil :
    (processTerrainGrid 1 (3/4) (fun _ _ => 0)).length = 1 ∧
    (⌈(1 : ℚ) * 2 * (3/4)⌉).toNat = 2 ∧
    (processTerrainGrid 1 (3/4) (fun _ _ => 0)).length ≠ (⌈(1 : ℚ) * 2 * (3/4)⌉).toNat := by
  have hceil : (⌈(1 : ℚ) * 2 * (3/4)⌉).toNat = 2 := by
    have : ((1 : ℚ) * 2 * (3/4)) = 3/2 := by norm_num
    rw [this]
    have h32 : (⌈(3/2 : ℚ)⌉ : ℤ) = 2 := by
      rw [Int.ceil_eq_iff]
      norm_num
    rw [h32]; rfl
  have hlen : (processTerrainGrid 1 (3/4) (fun _ _ => 0)).length = 1 := by
    norm_num [processTerrainGrid, gridSize, pyInt]
  exact ⟨hlen, hceil, by rw [hlen, hceil]; decide⟩

/-- Claim C6 as amended: the interpolated height grid is always square with
dimension `int(radius * 2 * resolution)` (truncation toward zero, which on
non-negative inputs is the floor) in each axis. -/
theorem grid_dims_trunc_and_square (radius resolution : ℚ) (interp : Nat → Nat → ℚ)
    (hnn : 0 ≤ radius * 2 * resolution) :
    (processTerrainGrid radius resolution interp).length =
      (⌊radius * 2 * resolution⌋).toNat ∧
    ∀ row ∈ processTerrainGrid radius resolution interp,
      row.length = (processTerrainGrid radius resolution interp).length := by
  constructor
  · simp [processTerrainGrid, gridSize, pyInt, hnn]
  · intro row hrow
    simp only [processTerrainGrid, List.mem_map] at hrow
    obtain ⟨i, _, rfl⟩ := hrow
    simp [processTerrainGrid]

/-- Witness for C6's amended statement at radius 1, resolution 3/4: the grid
is 1×1 (`int(1.5) = 1`). -/
theorem grid_dims_trunc_and_square_witness :
    (0 ≤ (1 : ℚ) * 2 * (3/4)) ∧
    ((processTerrainGrid 1 (3/4) (fun i j => (i : ℚ) * j)).length =
      (⌊(1 : ℚ) * 2 * (3/4)⌋).toNat ∧
    ∀ row ∈ processTerrainGrid 1 (3/4) (fun i j => (i : ℚ) * j),
      row.length = (processTerrainGrid 1 (3/4) (fun i j => (i : ℚ) * j)).length) :=
  ⟨by norm_num, grid_dims_trunc_and_square 1 (3/4) (fun i j => (i : ℚ) * j) (by norm_num)⟩

/-- The fields of `models/property.py:Building` consumed by the modeling
service (`building_type` is a string-valued enum there). -/
structure Building where
  id : String
  building_type : String
  gross_area : Option ℚ
  number_of_floors : Option Int
  deriving Repr, DecidableEq

/-- `floors = self.building.number_of_floors or 2`: Python `or` replaces both
`None` and `0` by the default 2. -/
def effectiveFloors (b : Building) : Int :=
  match b.number_of_floors with
  | none => 2
  | some n => if n = 0 then 2 else n

/-- `height = floors * 3.0`. -/
def buildingHeight (b : Building) : ℚ := (effectiveFloors b : ℚ) * 3

/-- Footprint of `BuildingModel.generate_mesh`: if `gross_area` is truthy,
`width = sqrt(area / floors)` and `length = width`; otherwise the default
`10.0 × 8.0` footprint. `math.sqrt` is modelled by the supplied `sqrtFn`
(its argument is non-negative whenever this is reached, see
`generateMeshSucceeds`). -/
def buildingDims (sqrtFn : ℚ → ℚ) (b : Building) : ℚ × ℚ :=
  match b.gross_area with
  | none => (10, 8)
  | some a =>
      if a = 0 then (10, 8)
      else (sqrtFn (a / (effectiveFloors b : ℚ)), sqrtFn (a / (effectiveFloors b : ℚ)))

/-- `BuildingModel.generate_mesh` succeeds unless `math.sqrt(area / floors)`
raises on a negative argument (the only failing operation; the `except`
clause then returns `False`). -/
def generateMeshSucceeds (b : Building) : Bool :=
  match b.gross_area with
  | none => true
  | some a => if a = 0 then true else decide (0 ≤ a / (effectiveFloors b : ℚ))

/-- `trimesh.creation.box(extents=[w, l, h])`: an axis-aligned box centred at
the origin. -/
def boxVertices (w l h : ℚ) : List (ℚ × ℚ × ℚ) :=
  [(-w/2, -l/2, -h/2), (w/2, -l/2, -h/2), (w/2, l/2, -h/2), (-w/2, l/2, -h/2),
   (-w/2, -l/2, h/2), (w/2, -l/2, h/2), (w/2, l/2, h/2), (-w/2, l/2, h/2)]

/-- A triangulation of the box's six quads (two triangles each). -/
def boxFaces : List (Nat × Nat × Nat) :=
  [(0,1,2),(0,2,3),(4,6,5),(4,7,6),(0,4,5),(0,5,1),
   (1,5,6),(1,6,2),(2,6,7),(2,7,3),(3,7,4),(3,4,0)]

def boxMesh (w l h : ℚ) : Mesh := ⟨boxVertices w l h, boxFaces⟩

/-- `mesh.apply_translation([0, 0, dz])`. -/
def Mesh.translateZ (m : Mesh) (dz : ℚ) : Mesh :=
  ⟨m.vertices.map (fun v => (v.1, v.2.1, v.2.2 + dz)), m.faces⟩

/-- The `roof_vertices` array of `BuildingModel._create_house_mesh`, verbatim
(including the duplicated top-centre/front-right corner). -/
def houseRoofVertices (w l bh h : ℚ) : List (ℚ × ℚ × ℚ) :=
  [(w/2, l/2, bh), (-w/2, -l/2, bh), (w/2, -l/2, bh),
   (-w/2, l/2, bh), (w/2, l/2, bh), (0, 0, h)]

/-- The `roof_faces` array of `BuildingModel._create_house_mesh`. -/
def houseRoofFaces : List (Nat × Nat × Nat) :=
  [(0,1,2),(0,3,1),(0,2,4),(0,4,3),(5,2,1),(5,1,3),(5,4,2),(5,3,4)]

/-- `BuildingModel._create_house_mesh`: box of height `0.7*h`, the roof
authored at absolute heights `[0.7*h, h]`, concatenated, and the WHOLE
concatenation translated by `[0, 0, base + 0.7*h/2]`. -/
def createHouseMesh (base w l h : ℚ) : Mesh :=
  let bh := h * (7/10)
  ((boxMesh w l bh).append ⟨houseRoofVertices w l bh h, houseRoofFaces⟩).translateZ
    (base + bh / 2)

/-- `BuildingModel._create_apartment_building_mesh`: plan scaled 1.5×, full
height box, bottom at `base`. -/
def createApartmentBuildingMesh (base w l h : ℚ) : Mesh :=
  (boxMesh (w * (3/2)) (l * (3/2)) h).translateZ (base + h / 2)

/-- `BuildingModel._create_commercial_building_mesh`: plan scaled 2×, full
height box, bottom at `base`. -/
def createCommercialBuildingMesh (base w l h : ℚ) : Mesh :=
  (boxMesh (w * 2) (l * 2) h).translateZ (base + h / 2)

/-- `BuildingModel._create_generic_building_mesh`: unscaled box, bottom at
`base`. -/
def createGenericBuildingMesh (base w l h : ℚ) : Mesh :=
  (boxMesh w l h).translateZ (base + h / 2)

def houseTypes : List String := ["enebolig", "tomannsbolig", "rekkehus", "hytte"]

def commercialTypes : List String := ["næringsbygg", "industribygg", "offentlig_bygg"]

/-- The building-type dispatch of `BuildingModel.generate_mesh`. -/
def createBuildingMesh (bt : String) (base w l h : ℚ) : Mesh :=
  if bt ∈ houseTypes then createHouseMesh base w l h
  else if bt = "leilighetsbygg" then createApartmentBuildingMesh base w l h
  else if bt ∈ commercialTypes then createCommercialBuildingMesh base w l h
  else createGenericBuildingMesh base w l h

/-- `BuildingModel.generate_mesh`: derive floors, footprint and height from
the building record and dispatch on the building type; `none` models the
`return False` path (exception from `math.sqrt` of a negative argument). -/
def buildingGenerateMesh (sqrtFn : ℚ → ℚ) (base : ℚ) (b : Building) : Option Mesh :=
  if generateMeshSucceeds b then
    some (createBuildingMesh b.building_type base
      (buildingDims sqrtFn b).1 (buildingDims sqrtFn b).2 (buildingHeight b))
  else none

/-- All z-coordinates of a vertex list lie at or above `c`. -/
def zLowerBound (vs : List (ℚ × ℚ × ℚ)) (c : ℚ) : Prop := ∀ v ∈ vs, c ≤ v.2.2

/-- Some vertex has z-coordinate exactly `c`. -/
def zAttained (vs : List (ℚ × ℚ × ℚ)) (c : ℚ) : Prop := ∃ v ∈ vs, v.2.2 = c

/-- The vertex list's plan projection is symmetric about the origin (so the
footprint's centre is at the plan origin). -/
def xySym (vs : List (ℚ × ℚ × ℚ)) : Prop :=
  ∀ v ∈ vs, ∃ u ∈ vs, u.1 = -v.1 ∧ u.2.1 = -v.2.1

/-- The attachment contract: the mesh's minimum z-coordinate equals `base`
(attained and a lower bound). -/
def attachedAt (m : Mesh) (base : ℚ) : Prop :=
  zAttained m.vertices base ∧ zLowerBound m.vertices base

/-- The mesh's footprint is centred at the plan origin. -/
def footprintCentered (m : Mesh) : Prop := xySym m.vertices

theorem zLowerBound_append {vs ws : List (ℚ × ℚ × ℚ)} {c : ℚ}
    (h1 : zLowerBound vs c) (h2 : zLowerBound ws c) : zLowerBound (vs ++ ws) c := by
  intro v hv
  rcases List.mem_append.mp hv with hv | hv
  exacts [h1 v hv, h2 v hv]

theorem zLowerBound_mono {vs : List (ℚ × ℚ × ℚ)} {c c' : ℚ}
    (h : zLowerBound vs c) (hcc : c' ≤ c) : zLowerBound vs c' :=
  fun v hv => hcc.trans (h v hv)

theorem zAttained_append_left {vs : List (ℚ × ℚ × ℚ)} (ws : List (ℚ × ℚ × ℚ)) {c : ℚ}
    (h : zAttained vs c) : zAttained (vs ++ ws) c := by
  obtain ⟨v, hv, hvz⟩ := h
  exact ⟨v, List.mem_append_left _ hv, hvz⟩

theorem zLowerBound_translate {vs : List (ℚ × ℚ × ℚ)} {c : ℚ} (dz : ℚ)
    (h : zLowerBound vs c) :
    zLowerBound (vs.map (fun v => (v.1, v.2.1, v.2.2 + dz))) (c + dz) := by
  intro v hv
  obtain ⟨u, hu, rfl⟩ := List.mem_map.mp hv
  exact add_le_add_right (h u hu) dz

theorem zAttained_translate {vs : List (ℚ × ℚ × ℚ)} {c : ℚ} (dz : ℚ)
    (h : zAttained vs c) :
    zAttained (vs.map (fun v => (v.1, v.2.1, v.2.2 + dz))) (c + dz) := by
  obtain ⟨v, hv, hvz⟩ := h
  exact ⟨(v.1, v.2.1, v.2.2 + dz), List.mem_map_of_mem _ hv, by rw [hvz]⟩

theorem xySym_append {vs ws : List (ℚ × ℚ × ℚ)}
    (h1 : xySym vs) (h2 : xySym ws) : xySym (vs ++ ws) := by
  intro v hv
  rcases List.mem_append.mp hv with hv | hv
  · obtain ⟨u, hu, hxy⟩ := h1 v hv
    exact ⟨u, List.mem_append_left _ hu, hxy⟩
  · obtain ⟨u, hu, hxy⟩ := h2 v hv
    exact ⟨u, List.mem_append_right _ hu, hxy⟩

theorem xySym_translate {vs : List (ℚ × ℚ × ℚ)} (dz : ℚ) (h : xySym vs) :
    xySym (vs.map (fun v => (v.1, v.2.1, v.2.2 + dz))) := by
  intro v hv
  obtain ⟨u, hu, rfl⟩ := List.mem_map.mp hv
  obtain ⟨u', hu', hxy⟩ := h u hu
  exact ⟨(u'.1, u'.2.1, u'.2.2 + dz), List.mem_map_of_mem _ hu', hxy.1, hxy.2⟩

theorem zLowerBound_box (w l h : ℚ) (hh : 0 ≤ h) :
    zLowerBound (boxVertices w l h) (-(h/2)) := by
  intro v hv
  simp only [boxVertices, List.mem_cons, List.not_mem_nil, or_false] at hv
  rcases hv with rfl|rfl|rfl|rfl|rfl|rfl|rfl|rfl <;> norm_num <;> linarith

theorem zAttained_box (w l h : ℚ) : zAttained (boxVertices w l h) (-(h/2)) :=
  ⟨(-w/2, -l/2, -h/2), by simp [boxVertices], by ring⟩

theorem xySym_box (w l h : ℚ) : xySym (boxVertices w l h) := by
  intro v hv
  simp only [boxVertices, List.mem_cons, List.not_mem_nil, or_false] at hv
  rcases hv with rfl|rfl|rfl|rfl|rfl|rfl|rfl|rfl
  · exact ⟨(w/2, l/2, -h/2), by simp [boxVertices], by ring, by ring⟩
  · exact ⟨(-w/2, l/2, -h/2), by simp [boxVertices], by ring, by ring⟩
  · exact ⟨(-w/2, -l/2, -h/2), by simp [boxVertices], by ring, by ring⟩
  · exact ⟨(w/2, -l/2, -h/2), by simp [boxVertices], by ring, by ring⟩
  · exact ⟨(w/2, l/2, h/2), by simp [boxVertices], by ring, by ring⟩
  · exact ⟨(-w/2, l/2, h/2), by simp [boxVertices], by ring, by ring⟩
  · exact ⟨(-w/2, -l/2, h/2), by simp [boxVertices], by ring, by ring⟩
  · exact ⟨(w/2, -l/2, h/2), by simp [boxVertices], by ring, by ring⟩

theorem zLowerBound_roof (w l bh h : ℚ) (hbh : -(bh/2) ≤ bh) (hball : -(bh/2) ≤ h) :
    zLowerBound (houseRoofVertices w l bh h) (-(bh/2)) := by
  intro v hv
  simp only [houseRoofVertices, List.mem_cons, List.not_mem_nil, or_false] at hv
  rcases hv with rfl|rfl|rfl|rfl|rfl|rfl <;> norm_num <;> linarith

theorem xySym_roof (w l bh h : ℚ) : xySym (houseRoofVertices w l bh h) := by
  intro v hv
  simp only [houseRoofVertices, List.mem_cons, List.not_mem_nil, or_false] at hv
  rcases hv with rfl|rfl|rfl|rfl|rfl|rfl
  · exact ⟨(-w/2, -l/2, bh), by simp [houseRoofVertices], by ring, by ring⟩
  · exact ⟨(w/2, l/2, bh), by simp [houseRoofVertices], by ring, by ring⟩
  · exact ⟨(-w/2, l/2, bh), by simp [houseRoofVertices], by ring, by ring⟩
  · exact ⟨(w/2, -l/2, bh), by simp [houseRoofVertices], by ring, by ring⟩
  · exact ⟨(-w/2, -l/2, bh), by simp [houseRoofVertices], by ring, by ring⟩
  · exact ⟨(0, 0, h), by simp [houseRoofVertices], by ring, by ring⟩

theorem placedBox_attach (w l h base : ℚ) (hh : 0 ≤ h) :
    attachedAt ((boxMesh w l h).translateZ (base + h / 2)) base ∧
    footprintCentered ((boxMesh w l h).translateZ (base + h / 2)) := by
  have hb : -(h/2) + (base + h / 2) = base := by ring
  refine ⟨⟨?_, ?_⟩, ?_⟩
  · have := zAttained_translate (base + h / 2) (zAttained_box w l h)
    rwa [hb] at this
  · have := zLowerBound_translate (base + h / 2) (zLowerBound_box w l h hh)
    rwa [hb] at this
  · exact xySym_translate _ (xySym_box w l h)

theorem createHouseMesh_attach (base w l h : ℚ) (hh : 0 ≤ h) :
    attachedAt (createHouseMesh base w l h) base ∧
    footprintCentered (createHouseMesh base w l h) := by
  have hbh : (0:ℚ) ≤ h * (7/10) := by linarith
  have hb : -(h * (7/10) / 2) + (base + h * (7/10) / 2) = base := by ring
  refine ⟨⟨?_, ?_⟩, ?_⟩
  · have := zAttained_translate (base + h * (7/10) / 2)
      (zAttained_append_left (houseRoofVertices w l (h * (7/10)) h)
        (zAttained_box w l (h * (7/10))))
    rwa [hb] at this
  · have := zLowerBound_translate (base + h * (7/10) / 2)
      (zLowerBound_append (zLowerBound_box w l (h * (7/10)) hbh)
        (zLowerBound_roof w l (h * (7/10)) h (by linarith) (by linarith)))
    rwa [hb] at this
  · exact xySym_translate _
      (xySym_append (xySym_box w l (h * (7/10))) (xySym_roof w l (h * (7/10)) h))

/-- Claim C4: for every building record with a physical floor count and every
base elevation, whenever `BuildingModel.generate_mesh` returns a mesh (any of
the four type-specific generators), the mesh's minimum vertex z-coordinate
equals the base elevation and its footprint is centred at the plan origin. -/
theorem building_mesh_attachment (sqrtFn : ℚ → ℚ) (b : Building) (base : ℚ)
    (hfl : ∀ n, b.number_of_floors = some n → 0 < n)
    (m : Mesh) (hm : buildingGenerateMesh sqrtFn base b = some m) :
    attachedAt m base ∧ footprintCentered m := by
  have hfl1 : (1 : Int) ≤ effectiveFloors b := by
    unfold effectiveFloors
    cases hnf : b.number_of_floors with
    | none => norm_num
    | some n =>
        by_cases hn : n = 0
        · simp [hn]
        · simpa [hn] using hfl n hnf
  have hh : (0 : ℚ) ≤ buildingHeight b := by
    unfold buildingHeight
    have : (1 : ℚ) ≤ (effectiveFloors b : ℚ) := by exact_mod_cast hfl1
    nlinarith
  unfold buildingGenerateMesh at hm
  split at hm
  · injection hm with hm
    subst hm
    unfold createBuildingMesh
    split_ifs
    · exact createHouseMesh_attach base _ _ _ hh
    · exact placedBox_attach _ _ _ base hh
    · exact placedBox_attach _ _ _ base hh
    · exact placedBox_attach _ _ _ base hh
  · exact absurd hm (by simp)

/-- Witness for C4: a two-floor house with no recorded area at base
elevation 5 (default 10×8 footprint, height 6). -/
theorem building_mesh_attachment_witness :
    attachedAt (createBuildingMesh "enebolig" 5 10 8 6) 5 ∧
    footprintCentered (createBuildingMesh "enebolig" 5 10 8 6) :=
  building_mesh_attachment id ⟨"b1", "enebolig", none, some 2⟩ 5
    (fun n hn => by cases hn; norm_num) _
    (by simp [buildingGenerateMesh, generateMeshSucceeds, buildingDims,
          buildingHeight, effectiveFloors]
        norm_num)

/-- Claim C3 (code bug): for the house spec of Scenario A
(floors = 2, gross area 128, base elevation 0) the footprint side is 8 and
the base prism does occupy z ∈ [0, 4.2]; but the translation in
`_create_house_mesh` is applied to the already-concatenated box + roof, so
the roof is lifted to z ∈ [6.3, 8.1] instead of the claimed [4.2, 6.0]: the
roof base quad sits 2.1 above the prism's top boundary loop and the model's
total height is 8.1, not 6.0. -/
theorem house_mesh_roof_detached :
    ((8:ℚ) * 8 = 128 / 2) ∧
    ((createHouseMesh 0 8 8 6).vertices.take 8).map (fun v => v.2.2) =
      [0, 0, 0, 0, 21/5, 21/5, 21/5, 21/5] ∧
    ((createHouseMesh 0 8 8 6).vertices.drop 8).map (fun v => v.2.2) =
      [63/10, 63/10, 63/10, 63/10, 63/10, 81/10] := by
  refine ⟨by norm_num, ?_, ?_⟩ <;>
    · simp [createHouseMesh, boxMesh, boxVertices, houseRoofVertices, Mesh.append,
        Mesh.translateZ]
      norm_num

/-- Counterexample for C9: a building with `number_of_floors = 0` (claimed to
be rejected as non-physical) is not rejected: Python's `floors or 2` maps 0
to the default 2 and mesh generation succeeds. -/
theorem floors_zero_not_rejected :
    effectiveFloors ⟨"b1", "enebolig", some 50, some 0⟩ = 2 ∧
    generateMeshSucceeds ⟨"b1", "enebolig", some 50, some 0⟩ = true ∧
    (buildingGenerateMesh id 0 ⟨"b1", "enebolig", some 50, some 0⟩).isSome = true := by
  refine ⟨by decide, ?_, ?_⟩ <;>
    norm_num [buildingGenerateMesh, generateMeshSucceeds, effectiveFloors]

/-- Claim C9 as amended: building-mesh synthesis fails exactly when the
recorded gross area is present and non-zero and `area / floors` is negative
(`math.sqrt` domain error); a floor count of 0 or `None` silently becomes the
default 2 and a gross area of 0 or `None` silently selects the default
10×8 footprint, so those inputs succeed. -/
theorem building_synthesis_failure_iff (sqrtFn : ℚ → ℚ) (base : ℚ) (b : Building) :
    buildingGenerateMesh sqrtFn base b = none ↔
      ∃ a, b.gross_area = some a ∧ a ≠ 0 ∧ a / (effectiveFloors b : ℚ) < 0 := by
  unfold buildingGenerateMesh generateMeshSucceeds
  cases hga : b.gross_area with
  | none => simp
  | some a =>
      by_cases ha : a = 0
      · subst ha; simp
      · rcases le_or_lt 0 (a / (effectiveFloors b : ℚ)) with hle | hlt
        · simp [ha, hle, not_lt.mpr hle]
        · simp [ha, hlt, not_le.mpr hlt]

/-- The formats with an export branch in `export_model` (glb, obj, stl); any
other format string logs an error and yields an empty path. -/
def supportedFormats : List String := ["glb", "obj", "stl"]

/-- `TerrainModel.export_model` filename: `terrain_{uuid.uuid4().hex[:8]}.{fmt}`
joined to the output directory; `uid` is the fresh identifier drawn from the
`uuid` collaborator on this call. -/
def terrainExportPath (dir uid fmt : String) : String :=
  dir ++ "/" ++ ("terrain_" ++ uid ++ "." ++ fmt)

/-- `BuildingModel.export_model` filename: `building_{building_id}.{fmt}`
joined to the output directory — a pure function of the building id and
format, with no per-call fresh identifier. -/
def buildingExportPath (dir buildingId fmt : String) : String :=
  dir ++ "/" ++ ("building_" ++ buildingId ++ "." ++ fmt)

/-- `TerrainModel.export_model`: returns the path actually written together
with the serialized vertex/face content; nothing (empty path) when there is
no mesh or the format is unsupported. -/
def terrainExportModel (mesh : Option Mesh) (dir uid fmt : String) :
    Option (String × Mesh) :=
  match mesh with
  | none => none
  | some m =>
      if fmt ∈ supportedFormats then some (terrainExportPath dir uid fmt, m) else none

/-- `BuildingModel.export_model`: same contract, but the filename comes from
the building id alone. -/
def buildingExportModel (mesh : Option Mesh) (dir buildingId fmt : String) :
    Option (String × Mesh) :=
  match mesh with
  | none => none
  | some m =>
      if fmt ∈ supportedFormats then some (buildingExportPath dir buildingId fmt, m) else none

/-- Counterexample for C7: `BuildingModel.export_model` consults no fresh
identifier — its result is the same fixed path on every invocation for a
given building and format, so exporting the same mesh twice yields equal
(not distinct) paths, the second write overwriting the first. -/
theorem building_export_path_collision :
    buildingExportModel (some ⟨[(0,0,0)], []⟩) "data/models/property_model_1" "42" "glb" =
      some ("data/models/property_model_1/building_42.glb", ⟨[(0,0,0)], []⟩) ∧
    buildingExportModel (some ⟨[(0,0,0)], []⟩) "data/models/property_model_1" "42" "glb" =
      buildingExportModel (some ⟨[(0,0,0)], []⟩) "data/models/property_model_1" "42" "glb" := by
  exact ⟨by decide, rfl⟩

theorem terrainExportPath_inj {dir u1 u2 fmt : String}
    (h : terrainExportPath dir u1 fmt = terrainExportPath dir u2 fmt) : u1 = u2 := by
  have h1 := congrArg String.data h
  simp only [terrainExportPath, String.data_append, List.append_assoc] at h1
  have h2 := List.append_cancel_left (List.append_cancel_left (List.append_cancel_left h1))
  rw [← List.append_assoc, ← List.append_assoc] at h2
  exact String.ext (List.append_cancel_right (List.append_cancel_right h2))

/-- Claim C7 as amended: terrain export writes identical mesh content on both
calls and returns the real path written, and two terrain-export calls with
distinct fresh identifiers return distinct paths; building export, by
contrast, derives its path from the building id alone (see the
counterexample), so repeated building exports reuse one path. -/
theorem terrain_export_distinct_paths (dir u1 u2 fmt : String) (m : Mesh)
    (hne : u1 ≠ u2) (hfmt : fmt ∈ supportedFormats) :
    terrainExportModel (some m) dir u1 fmt = some (terrainExportPath dir u1 fmt, m) ∧
    terrainExportModel (some m) dir u2 fmt = some (terrainExportPath dir u2 fmt, m) ∧
    terrainExportPath dir u1 fmt ≠ terrainExportPath dir u2 fmt := by
  refine ⟨by simp [terrainExportModel, hfmt], by simp [terrainExportModel, hfmt], ?_⟩
  intro h
  exact hne (terrainExportPath_inj h)

/-- Witness for C7's amended statement at two concrete fresh identifiers. -/
theorem terrain_export_distinct_paths_witness :
    ("abcd1234" ≠ "ef567890") ∧ ("glb" ∈ supportedFormats) ∧
    (terrainExportModel (some ⟨[(0,0,0)], []⟩) "d" "abcd1234" "glb" =
      some (terrainExportPath "d" "abcd1234" "glb", ⟨[(0,0,0)], []⟩) ∧
    terrainExportModel (some ⟨[(0,0,0)], []⟩) "d" "ef567890" "glb" =
      some (terrainExportPath "d" "ef567890" "glb", ⟨[(0,0,0)], []⟩) ∧
    terrainExportPath "d" "abcd1234" "glb" ≠ terrainExportPath "d" "ef567890" "glb") :=
  ⟨by decide, by decide,
   terrain_export_distinct_paths "d" "abcd1234" "ef567890" "glb" ⟨[(0,0,0)], []⟩
     (by decide) (by decide)⟩

/-- `models/property.py:Coordinates` (the fields the pipeline reads). -/
structure Coordinates where
  latitude : ℚ
  longitude : ℚ
  deriving Repr, DecidableEq

/-- `models/property.py:Property` (the fields the pipeline reads). -/
structure Property where
  property_id : String
  coordinates : Coordinates
  buildings : List Building
  deriving Repr, DecidableEq

/-- `ModelingOptions` of `modeling_3d.py` (texturing flags and `lod` carried
along but unread by the modelled code paths). -/
structure ModelingOptions where
  resolution : ℚ := 10
  terrain_radius : ℚ := 100
  include_buildings : Bool := true
  include_terrain : Bool := true
  texture_buildings : Bool := true
  texture_terrain : Bool := true
  terrain_height_multiplier : ℚ := 1
  lod : Int := 2
  format : String := "glb"
  deriving Repr, DecidableEq

/-- `TerrainModel.fetch_terrain_data`: the provider reply is `none` for a
raised provider error and `some pts` for a reply with point list `pts`;
an error or an empty/missing point list yields failure (`return False`),
otherwise the interpolated grid of `_process_terrain_data` is stored. -/
def fetchTerrainData (radius resolution : ℚ) (interp : Nat → Nat → ℚ)
    (reply : Option (List (ℚ × ℚ × ℚ))) : Option (List (List ℚ)) :=
  match reply with
  | none => none
  | some [] => none
  | some (_ :: _) => some (processTerrainGrid radius resolution interp)

/-- `PropertyModel._generate_terrain`: fetch the terrain data and build the
terrain mesh from the stored square grid (`grid_size = shape[0]`). -/
def generateTerrain (opts : ModelingOptions) (interp : Nat → Nat → ℚ)
    (reply : Option (List (ℚ × ℚ × ℚ))) : Option Mesh :=
  match fetchTerrainData opts.terrain_radius opts.resolution interp reply with
  | none => none
  | some grid =>
      some (terrainGenerateMesh grid.length opts.terrain_radius
        opts.terrain_height_multiplier
        (fun i j => (((grid.get? i).bind (fun row => row.get? j)).getD 0)))

/-- `PropertyModel._generate_buildings`: every building is synthesized at
base height 0; a building whose mesh generation fails is skipped (the step
itself always succeeds). -/
def generateBuildings (sqrtFn : ℚ → ℚ) (prop : Property) : List (Building × Mesh) :=
  prop.buildings.filterMap
    (fun b => (buildingGenerateMesh sqrtFn 0 b).map (fun m => (b, m)))

/-- The intermediate state a successful `PropertyModel.generate_model` leaves
behind: the optional terrain mesh, the per-building meshes, and the combined
mesh. -/
structure GeneratedModel where
  terrain : Option Mesh
  buildings : List (Building × Mesh)
  combined : Option Mesh
  deriving Repr, DecidableEq

/-- `PropertyModel.generate_model`: `success` is threaded through with
short-circuiting `and`; a terrain step failure (when `include_terrain`) makes
the whole run fail, and otherwise the combine step decides the outcome.
`none` models `return False`. -/
def generateModel (sqrtFn : ℚ → ℚ) (prop : Property) (opts : ModelingOptions)
    (interp : Nat → Nat → ℚ) (reply : Option (List (ℚ × ℚ × ℚ))) :
    Option GeneratedModel :=
  let terrain := if opts.include_terrain then generateTerrain opts interp reply else none
  if opts.include_terrain ∧ terrain = none then none
  else
    let bms := if opts.include_buildings then generateBuildings sqrtFn prop else []
    match combineModels terrain (bms.map Prod.snd) with
    | none => none
    | some c => some ⟨terrain, bms, some c⟩

/-- One artifact record of the returned metadata dictionary. -/
structure FileEntry where
  ftype : String
  building_id : Option String
  format : String
  path : String
  deriving Repr, DecidableEq

/-- The metadata dictionary returned by `PropertyModel.export_model` and
`generate_property_model` (`created_at` is wall-clock time and not
modelled). `error = none` means the `error` key is absent. -/
structure ModelResult where
  model_id : String
  property_id : String
  files : List FileEntry
  error : Option String
  deriving Repr, DecidableEq

/-- The conditions under which the `try` block of
`PropertyModel.export_model` raises: a filesystem failure (`ioOk = false`),
or exporting the combined mesh in an unsupported format
(`trimesh.export` raises; terrain/building exports catch their own errors). -/
def exportRaises (opts : ModelingOptions) (gm : GeneratedModel) (ioOk : Bool) : Bool :=
  !ioOk || (gm.combined.isSome && !(opts.format ∈ supportedFormats))

/-- `PropertyModel.export_model`: on success, one `combined` entry when a
combined mesh exists, one `terrain` entry when the terrain mesh exists and
its export produced a path, and one `building` entry per building model whose
export produced a path; on a raised exception, the error dictionary with an
empty `files` list. -/
def exportModel (prop : Property) (opts : ModelingOptions) (modelId : String)
    (gm : GeneratedModel) (terrainUid : String) (ioOk : Bool) : ModelResult :=
  let modelDir := "data/models" ++ "/" ++ modelId
  if exportRaises opts gm ioOk then
    ⟨modelId, prop.property_id, [], some "Error exporting property model"⟩
  else
    let combinedFiles :=
      match gm.combined with
      | some _ => [⟨"combined", none, opts.format, modelDir ++ "/combined." ++ opts.format⟩]
      | none => []
    let terrainFiles :=
      match terrainExportModel gm.terrain modelDir terrainUid opts.format with
      | some (p, _) => [(⟨"terrain", none, opts.format, p⟩ : FileEntry)]
      | none => []
    let buildingFiles := gm.buildings.filterMap
      (fun bm =>
        match buildingExportModel (some bm.2) modelDir bm.1.id opts.format with
        | some (p, _) => some (⟨"building", some bm.1.id, opts.format, p⟩ : FileEntry)
        | none => none)
    ⟨modelId, prop.property_id, combinedFiles ++ terrainFiles ++ buildingFiles, none⟩

/-- `generate_property_model`: run the pipeline and export; if generation
fails, return the failure dictionary with empty `files` and an `error` key. -/
def generatePropertyModel (sqrtFn : ℚ → ℚ) (prop : Property) (opts : ModelingOptions)
    (interp : Nat → Nat → ℚ) (reply : Option (List (ℚ × ℚ × ℚ)))
    (modelId terrainUid : String) (ioOk : Bool) : ModelResult :=
  match generateModel sqrtFn prop opts interp reply with
  | some gm => exportModel prop opts modelId gm terrainUid ioOk
  | none => ⟨modelId, prop.property_id, [], some "Failed to generate property model"⟩

/-- Counterexample for C1: a property with one building, terrain enabled, and
a terrain provider that returns zero points. `generate_model` fails the whole
run (`success and self._generate_terrain()` short-circuits), so
`generate_property_model` returns the failure dictionary: an `error` key and
an empty `files` list — no `building` or `combined` entry, contradicting the
claimed non-failed, terrain-omitting outcome. -/
theorem terrain_failure_fails_run_counterexample :
    generatePropertyModel id
      ⟨"prop-1", ⟨59, 10⟩, [⟨"b1", "enebolig", none, some 2⟩]⟩
      ⟨10, 100, true, true, true, true, 1, 2, "glb"⟩
      (fun _ _ => 0) (some []) "property_model_1" "u1" true =
      ⟨"property_model_1", "prop-1", [], some "Failed to generate property model"⟩ ∧
    ([⟨"b1", "enebolig", none, some 2⟩] : List Building).length = 1 :=
  ⟨rfl, rfl⟩

/-- Claim C1 as amended: when terrain is enabled and the terrain provider
fails or returns zero points, the run FAILS for every property: the result
carries an `error` key and an empty `files` list (terrain failure is fatal,
not degraded to a buildings-only model). -/
theorem terrain_failure_fails_run (sqrtFn : ℚ → ℚ) (prop : Property)
    (opts : ModelingOptions) (interp : Nat → Nat → ℚ)
    (reply : Option (List (ℚ × ℚ × ℚ))) (modelId uid : String) (ioOk : Bool)
    (hterr : opts.include_terrain = true)
    (hreply : reply = none ∨ reply = some []) :
    generatePropertyModel sqrtFn prop opts interp reply modelId uid ioOk =
      ⟨modelId, prop.property_id, [], some "Failed to generate property model"⟩ := by
  have hterrain : generateTerrain opts interp reply = none := by
    unfold generateTerrain
    rcases hreply with rfl | rfl <;> rfl
  unfold generatePropertyModel generateModel
  rw [hterr]
  simp [hterrain]

/-- Witness for C1's amended statement at the concrete failing input of the
counterexample. -/
theorem terrain_failure_fails_run_witness :
    ((⟨10, 100, true, true, true, true, 1, 2, "glb"⟩ : ModelingOptions).include_terrain = true) ∧
    ((some [] : Option (List (ℚ × ℚ × ℚ))) = none ∨
      (some [] : Option (List (ℚ × ℚ × ℚ))) = some []) ∧
    generatePropertyModel id
      ⟨"prop-2", ⟨59, 10⟩, [⟨"b1", "enebolig", none, some 2⟩]⟩
      ⟨10, 100, true, true, true, true, 1, 2, "glb"⟩
      (fun _ _ => 0) (some []) "property_model_2" "u2" true =
      ⟨"property_model_2", "prop-2", [], some "Failed to generate property model"⟩ :=
  ⟨rfl, Or.inr rfl,
   terrain_failure_fails_run id
     ⟨"prop-2", ⟨59, 10⟩, [⟨"b1", "enebolig", none, some 2⟩]⟩
     ⟨10, 100, true, true, true, true, 1, 2, "glb"⟩
     (fun _ _ => 0) (some []) "property_model_2" "u2" true rfl (Or.inr rfl)⟩

/-- Claim C10: `generate_property_model` always returns a dictionary carrying
`model_id`, `property_id` and `files`; whenever generation fails or the
export step raises, `files` is the empty list and an `error` key is present,
while `model_id` and `property_id` still identify the attempted run. -/
theorem generate_property_model_failure_shape (sqrtFn : ℚ → ℚ) (prop : Property)
    (opts : ModelingOptions) (interp : Nat → Nat → ℚ)
    (reply : Option (List (ℚ × ℚ × ℚ))) (modelId uid : String) (ioOk : Bool)
    (hfail : generateModel sqrtFn prop opts interp reply = none ∨
      ∃ gm, generateModel sqrtFn prop opts interp reply = some gm ∧
        exportRaises opts gm ioOk = true) :
    (generatePropertyModel sqrtFn prop opts interp reply modelId uid ioOk).model_id = modelId ∧
    (generatePropertyModel sqrtFn prop opts interp reply modelId uid ioOk).property_id =
      prop.property_id ∧
    (generatePropertyModel sqrtFn prop opts interp reply modelId uid ioOk).files = [] ∧
    (generatePropertyModel sqrtFn prop opts interp reply modelId uid ioOk).error.isSome = true := by
  rcases hfail with hgen | ⟨gm, hgen, hraise⟩
  · unfold generatePropertyModel
    rw [hgen]
    exact ⟨rfl, rfl, rfl, rfl⟩
  · unfold generatePropertyModel
    rw [hgen]
    simp [exportModel, hraise]

/-- Witness for C10 at a concrete failing run: no terrain requested and no
buildings, so composing fails and the failure dictionary is returned. -/
theorem generate_property_model_failure_shape_witness :
    (generateModel id ⟨"prop-3", ⟨0, 0⟩, []⟩
      ⟨10, 100, true, false, true, true, 1, 2, "glb"⟩ (fun _ _ => 0) none = none) ∧
    ((generatePropertyModel id ⟨"prop-3", ⟨0, 0⟩, []⟩
      ⟨10, 100, true, false, true, true, 1, 2, "glb"⟩ (fun _ _ => 0) none
      "property_model_3" "u3" true).model_id = "property_model_3" ∧
    (generatePropertyModel id ⟨"prop-3", ⟨0, 0⟩, []⟩
      ⟨10, 100, true, false, true, true, 1, 2, "glb"⟩ (fun _ _ => 0) none
      "property_model_3" "u3" true).property_id = "prop-3" ∧
    (generatePropertyModel id ⟨"prop-3", ⟨0, 0⟩, []⟩
      ⟨10, 100, true, false, true, true, 1, 2, "glb"⟩ (fun _ _ => 0) none
      "property_model_3" "u3" true).files = [] ∧
    (generatePropertyModel id ⟨"prop-3", ⟨0, 0⟩, []⟩
      ⟨10, 100, true, false, true, true, 1, 2, "glb"⟩ (fun _ _ => 0) none
      "property_model_3" "u3" true).error.isSome = true) :=
  ⟨rfl, generate_property_model_failure_shape id ⟨"prop-3", ⟨0, 0⟩, []⟩
    ⟨10, 100, true, false, true, true, 1, 2, "glb"⟩ (fun _ _ => 0) none
    "property_model_3" "u3" true (Or.inl rfl)⟩

end Modeling3d
